import Mathlib

/-!
# Verification of the uprent-operations Scrape Executor

Shallow embedding of the scrape execution and selector-resolution logic of
the `uprent-operations` repository:

* `src/apps/scraper-engine/src/scrapers/base-scraper.ts` (`BaseScraper.scrape`,
  `BaseScraper.fetchDirect`),
* `src/packages/shared/src/types.ts` (`ScrapeResult`),
* the shared utility `hashHtml` (SHA-256 hex digest of the HTML body),
* the diagnostic endpoint `POST /api/test-selector` in
  `src/apps/scraper-engine/src/index.ts`.

Network I/O (axios) and the DOM engine (cheerio) are external collaborators;
they are modelled as explicit oracles passed to the embedded functions:
a network oracle maps an outgoing request to either a response body or an
error message, and a DOM-query oracle maps (document, selector) to either a
match count or an error message (cheerio's selector engine throws on a
syntactically invalid selector, so the query oracle is fallible).
JavaScript exceptions are modelled with `Except String`; the `try`/`catch`
structure of the source is mirrored by explicit `match`es on those values.
-/

set_option maxRecDepth 100000

/-! ## SHA-256 (the `hashHtml` utility)

The shared package computes `crypto.createHash('sha256').update(html).digest('hex')`.
We embed SHA-256 itself (FIPS 180-4) over byte lists, words as `Nat` reduced
modulo `2 ^ 32`. -/

def w32 (n : Nat) : Nat := n % 4294967296

def rotr32 (n w : Nat) : Nat := w32 ((w >>> n) ||| (w <<< (32 - n)))

def shaCh (e f g : Nat) : Nat := (e &&& f) ^^^ ((e ^^^ 0xffffffff) &&& g)

def shaMaj (a b c : Nat) : Nat := (a &&& b) ^^^ (a &&& c) ^^^ (b &&& c)

def bsig0 (a : Nat) : Nat := rotr32 2 a ^^^ rotr32 13 a ^^^ rotr32 22 a

def bsig1 (e : Nat) : Nat := rotr32 6 e ^^^ rotr32 11 e ^^^ rotr32 25 e

def ssig0 (x : Nat) : Nat := rotr32 7 x ^^^ rotr32 18 x ^^^ (x >>> 3)

def ssig1 (x : Nat) : Nat := rotr32 17 x ^^^ rotr32 19 x ^^^ (x >>> 10)

/-- The 64 round constants of FIPS 180-4 (fractional parts of the cube roots
of the first 64 primes), written in decimal. -/
def shaK : List Nat :=
  [1116352408, 1899447441, 3049323471, 3921009573, 961987163, 1508970993,
   2453635748, 2870763221, 3624381080, 310598401, 607225278, 1426881987,
   1925078388, 2162078206, 2614888103, 3248222580, 3835390401, 4022224774,
   264347078, 604807628, 770255983, 1249150122, 1555081692, 1996064986,
   2554220882, 2821834349, 2952996808, 3210313671, 3336571891, 3584528711,
   113926993, 338241895, 666307205, 773529912, 1294757372, 1396182291,
   1695183700, 1986661051, 2177026350, 2456956037, 2730485921, 2820302411,
   3259730800, 3345764771, 3516065817, 3600352804, 4094571909, 275423344,
   430227734, 506948616, 659060556, 883997877, 958139571, 1322822218,
   1537002063, 1747873779, 1955562222, 2024104815, 2227730452, 2361852424,
   2428436474, 2756734187, 3204031479, 3329325298]

structure Sha8 where
  sa : Nat
  sb : Nat
  sc : Nat
  sd : Nat
  se : Nat
  sf : Nat
  sg : Nat
  sh : Nat

/-- The initial hash state of FIPS 180-4, in decimal. -/
def sha8Init : Sha8 :=
  ⟨1779033703, 3144134277, 1013904242, 2773480762,
   1359893119, 2600822924, 528734635, 1541459225⟩

def be64 (n : Nat) : List Nat := (List.range 8).map (fun i => (n >>> ((7 - i) * 8)) % 256)

def padBytes (msg : List Nat) : List Nat :=
  let zeros := (55 + 64 - msg.length % 64) % 64
  msg ++ 0x80 :: List.replicate zeros 0 ++ be64 (msg.length * 8)

def beWord (bs : List Nat) : Nat := bs.foldl (fun acc b => acc * 256 + b) 0

def schedule (block : List Nat) : List Nat :=
  let w0 := (List.range 16).map (fun i => beWord ((block.drop (4 * i)).take 4))
  (List.range 48).foldl (fun w t =>
    w ++ [w32 (ssig1 (w.getD (t + 14) 0) + w.getD (t + 9) 0 + ssig0 (w.getD (t + 1) 0) + w.getD t 0)]) w0

def roundStep (w : List Nat) (st : Sha8) (t : Nat) : Sha8 :=
  let t1 := w32 (st.sh + bsig1 st.se + shaCh st.se st.sf st.sg + shaK.getD t 0 + w.getD t 0)
  let t2 := w32 (bsig0 st.sa + shaMaj st.sa st.sb st.sc)
  ⟨w32 (t1 + t2), st.sa, st.sb, st.sc, w32 (st.sd + t1), st.se, st.sf, st.sg⟩

def compress (h : Sha8) (block : List Nat) : Sha8 :=
  let st := (List.range 64).foldl (roundStep (schedule block)) h
  ⟨w32 (h.sa + st.sa), w32 (h.sb + st.sb), w32 (h.sc + st.sc), w32 (h.sd + st.sd),
   w32 (h.se + st.se), w32 (h.sf + st.sf), w32 (h.sg + st.sg), w32 (h.sh + st.sh)⟩

def shaBlocks (msg : List Nat) : Sha8 :=
  let padded := padBytes msg
  (List.range (padded.length / 64)).foldl
    (fun h i => compress h ((padded.drop (64 * i)).take 64)) sha8Init

def hexDigit (n : Nat) : Char := if n < 10 then Char.ofNat (48 + n) else Char.ofNat (87 + n)

def hex8 (w : Nat) : String :=
  String.mk ((List.range 8).map (fun i => hexDigit ((w >>> ((7 - i) * 4)) &&& 15)))

def sha256hex (msg : List Nat) : String :=
  let h := shaBlocks msg
  hex8 h.sa ++ hex8 h.sb ++ hex8 h.sc ++ hex8 h.sd ++ hex8 h.se ++ hex8 h.sf ++ hex8 h.sg ++ hex8 h.sh

/-- UTF-8 encoding of a single code point (what Node's
`hash.update(html)` applies to the string before digesting). -/
def utf8Bytes (c : Nat) : List Nat :=
  if c < 0x80 then [c]
  else if c < 0x800 then [0xc0 ||| (c >>> 6), 0x80 ||| (c &&& 0x3f)]
  else if c < 0x10000 then
    [0xe0 ||| (c >>> 12), 0x80 ||| ((c >>> 6) &&& 0x3f), 0x80 ||| (c &&& 0x3f)]
  else
    [0xf0 ||| (c >>> 18), 0x80 ||| ((c >>> 12) &&& 0x3f),
     0x80 ||| ((c >>> 6) &&& 0x3f), 0x80 ||| (c &&& 0x3f)]

def strBytes (s : String) : List Nat := (s.data.map (fun c => utf8Bytes c.toNat)).flatten

/-- `hashHtml` from the shared utilities: the SHA-256 hex digest of the
UTF-8 bytes of the HTML string. -/
def hashHtml (html : String) : String :=
  sha256hex (strBytes html)

/-- Sanity check against the FIPS 180-4 test vector for the empty message. -/
theorem sha256hex_empty_vector :
    sha256hex [] = "e3b0c44298fc1c149afbf4c8996fb92427ae41e4649b934ca495991b7852b855" := by
  decide

/-- Sanity check against the FIPS 180-4 test vector for "abc". -/
theorem hashHtml_abc_vector :
    hashHtml "abc" = "ba7816bf8f01cfea414140de5dae2223b00361a396177a9cb410ff61f20015ad" := by
  decide

/-! ## Data model (`src/packages/shared/src/types.ts`)

`ScrapeResult` is the exact record shape returned by `BaseScraper.scrape`:
`{ success, listingsFound, htmlHash, error?, responseTime, timestamp }`.
Note: there is no `selectorUsed` field in the produced record. -/

structure ScrapeResult where
  success : Bool
  listingsFound : Nat
  htmlHash : String
  error : Option String
  responseTime : Nat
  timestamp : String
deriving DecidableEq, Repr

/-- `ScrapeOptions` from `base-scraper.ts` (all fields optional). -/
structure ScrapeOptions where
  waitForSelector : Option String := none
  timeout : Option Nat := none
  headers : Option (List (String × String)) := none

/-- JavaScript `v || d` on an optional number (`0` is falsy). -/
def jsOrNat (v : Option Nat) (d : Nat) : Nat :=
  match v with
  | none => d
  | some n => if n = 0 then d else n

/-- JavaScript truthiness of an optional string (`undefined` and `""` are falsy). -/
def jsTruthyStr (v : Option String) : Bool :=
  match v with
  | none => false
  | some s => !(s == "")

/-- JavaScript `v || undefined` on an optional string. -/
def jsOrUndef (v : Option String) : Option String :=
  if jsTruthyStr v then v else none

/-- JavaScript `v || d` on an optional headers object (an object is always truthy). -/
def jsOrHeaders (v : Option (List (String × String))) (d : List (String × String)) :
    List (String × String) :=
  match v with
  | none => d
  | some h => h

/-! ## Network model

axios calls are modelled as an oracle `net : HttpRequest → Except String String`
mapping the outgoing request to either the response body or a thrown error
message (network failure, non-2xx status, or timeout — axios rejects on all
three, which the embedding folds into `Except.error`). -/

/-- Query parameters of the ScrapingBee (rendering proxy) request,
as built at `base-scraper.ts:46-58`. -/
structure BeeParams where
  api_key : String
  url : String
  render_js : String
  wait : Nat
  wait_for : Option String
  timeout : Nat
deriving DecidableEq, Repr

/-- An outgoing axios GET request: URL, optional ScrapingBee query parameters,
headers, and the axios client timeout in milliseconds. -/
structure HttpRequest where
  url : String
  params : Option BeeParams
  headers : List (String × String)
  timeout : Nat
deriving DecidableEq, Repr

/-- Default header used for the ScrapingBee call (`base-scraper.ts:55-57`). -/
def beeDefaultHeaders : List (String × String) :=
  [("User-Agent", "Mozilla/5.0 (Windows NT 10.0; Win64; x64) AppleWebKit/537.36")]

/-- Browser-like headers of the direct fetch (`base-scraper.ts:135-142`). -/
def directHeaders : List (String × String) :=
  [("User-Agent", "Mozilla/5.0 (Windows NT 10.0; Win64; x64) AppleWebKit/537.36 (KHTML, like Gecko) Chrome/120.0.0.0 Safari/537.36"),
   ("Accept", "text/html,application/xhtml+xml,application/xml;q=0.9,image/webp,*/*;q=0.8"),
   ("Accept-Language", "en-US,en;q=0.5"),
   ("Accept-Encoding", "gzip, deflate, br"),
   ("Connection", "keep-alive"),
   ("Upgrade-Insecure-Requests", "1")]

/-- The ScrapingBee request issued on the primary path (`base-scraper.ts:46-59`):
`render_js = 'true'`, `wait` is 3000 when a wait-selector is given else 0,
`wait_for` is the wait-selector or undefined, the `timeout` query parameter is
`options.timeout || 30000`, and the axios client timeout is
`(options.timeout || 30000) + 5000`. -/
def primaryRequest (apiKey url : String) (options : ScrapeOptions) : HttpRequest :=
  { url := "https://app.scrapingbee.com/api/v1/",
    params := some
      { api_key := apiKey,
        url := url,
        render_js := "true",
        wait := if jsTruthyStr options.waitForSelector then 3000 else 0,
        wait_for := jsOrUndef options.waitForSelector,
        timeout := jsOrNat options.timeout 30000 },
    headers := jsOrHeaders options.headers beeDefaultHeaders,
    timeout := jsOrNat options.timeout 30000 + 5000 }

/-- The direct GET issued by `fetchDirect` (`base-scraper.ts:133-146`):
browser-like headers, axios client timeout `options.timeout || 30000`. -/
def directRequest (url : String) (options : ScrapeOptions) : HttpRequest :=
  { url := url,
    params := none,
    headers := jsOrHeaders options.headers directHeaders,
    timeout := jsOrNat options.timeout 30000 }

/-- `BaseScraper.fetchDirect`: a single direct GET; any axios rejection
propagates to the caller. -/
def fetchDirect (net : HttpRequest → Except String String) (url : String)
    (options : ScrapeOptions) : Except String String :=
  net (directRequest url options)

/-- The fetch phase of `BaseScraper.scrape` (`base-scraper.ts:40-70`):
if an API key is configured (non-empty string — JS truthiness of
`this.apiKey`), try ScrapingBee first and fall back to `fetchDirect` on any
error; otherwise go directly to `fetchDirect`. An error of `fetchDirect`
propagates. -/
def fetchHtml (net : HttpRequest → Except String String) (apiKey url : String)
    (options : ScrapeOptions) : Except String String :=
  if apiKey = "" then fetchDirect net url options
  else
    match net (primaryRequest apiKey url options) with
    | Except.ok html => Except.ok html
    | Except.error _ => fetchDirect net url options

/-! ## Selector evaluation (`base-scraper.ts:72-97`)

The DOM engine is an oracle `q : String → Except String Nat` giving, for the
loaded document, the number of elements matching a selector — or an error:
cheerio's selector engine throws on a syntactically invalid selector, and the
loop at lines 80-97 contains no per-selector handler, so such an error
propagates out of the loop (to the outer catch of `scrape`). -/

/-- JavaScript `String.prototype.split(',')` over the character list:
splits at every comma, keeping empty segments, and yields `[""]` for the
empty string (structurally recursive so that concrete runs evaluate). -/
def splitOnComma : List Char → List Char → List String
  | [], acc => [String.mk acc.reverse]
  | c :: rest, acc =>
    if c = ',' then String.mk acc.reverse :: splitOnComma rest []
    else splitOnComma rest (c :: acc)

/-- JavaScript `String.prototype.trim()`: strip leading and trailing
whitespace. -/
def jsTrim (s : String) : String :=
  String.mk (((s.data.dropWhile Char.isWhitespace).reverse.dropWhile Char.isWhitespace).reverse)

/-- `selector.split(',').map(s => s.trim())` (`base-scraper.ts:76`). -/
def splitSelectors (selector : String) : List String :=
  (splitOnComma selector.data []).map jsTrim

/-- The selector loop of `base-scraper.ts:80-97`, with accumulators
`best` (= `listingsFound`, initially 0) and `work` (= `workingSelector`,
initially the whole selector string): for each candidate in order, query its
count; a strictly greater count replaces the running best; a count `≥ 10`
(the confidence threshold) is selected immediately and the loop breaks. -/
def evalSelectors (q : String → Except String Nat) :
    List String → Nat → String → Except String (Nat × String)
  | [], best, work => Except.ok (best, work)
  | sel :: rest, best, work =>
    match q sel with
    | Except.error e => Except.error e
    | Except.ok count =>
      let best2 := if best < count then count else best
      let work2 := if best < count then sel else work
      if 10 ≤ count then Except.ok (count, sel)
      else evalSelectors q rest best2 work2

/-- The same loop specialised to an infallible count function (every candidate
parses); used to state properties of the selection logic. -/
def evalCounts (count : String → Nat) : List String → Nat → String → Nat × String
  | [], best, work => (best, work)
  | sel :: rest, best, work =>
    let c := count sel
    let best2 := if best < c then c else best
    let work2 := if best < c then sel else work
    if 10 ≤ c then (c, sel) else evalCounts count rest best2 work2

/-- Modelled from the spec: "Track the running best match by highest count
seen so far (ties keep the earlier-seen candidate ... only a strictly greater
count replaces the current best)" — a plain running-best fold with no early
exit, for comparison with `evalCounts`. -/
def runBest (count : String → Nat) : List String → Nat × String → Nat × String
  | [], bw => bw
  | sel :: rest, bw =>
    runBest count rest (if bw.1 < count sel then (count sel, sel) else bw)

/-! ## The executor (`BaseScraper.scrape`, `base-scraper.ts:36-125`)

`elapsed` stands for `Date.now() - startTime` and `timestamp` for
`new Date().toISOString()` (wall clock, supplied by the environment).
The whole body runs inside `try`/`catch`: any error of the fetch phase or of
the selector loop reaches the catch block, which returns the failure record
`{success: false, listingsFound: 0, htmlHash: '', error, ...}`. On the
success path the record carries no `error` field and no selector. -/

def scrape (net : HttpRequest → Except String String)
    (q : String → String → Except String Nat)
    (apiKey url selector : String) (options : ScrapeOptions)
    (elapsed : Nat) (timestamp : String) : ScrapeResult :=
  match fetchHtml net apiKey url options with
  | Except.error e =>
    { success := false, listingsFound := 0, htmlHash := "", error := some e,
      responseTime := elapsed, timestamp := timestamp }
  | Except.ok html =>
    match evalSelectors (q html) (splitSelectors selector) 0 selector with
    | Except.error e =>
      { success := false, listingsFound := 0, htmlHash := "", error := some e,
        responseTime := elapsed, timestamp := timestamp }
    | Except.ok (n, _) =>
      { success := true, listingsFound := n, htmlHash := hashHtml html, error := none,
        responseTime := elapsed, timestamp := timestamp }

/-! ## The diagnostic endpoint (`POST /api/test-selector`, `index.ts:179-287`)

Modelled to the degree the control flow needs: the missing-field guard, the
single direct fetch, and the selector evaluations, with `fetched` and
`evaluated` flags recording whether the network call and any DOM query were
performed. The response payload of the ranking (sample HTML snippets, sort
order, recommendation text) is beyond the status/effect behaviour and is not
modelled. -/

structure TestSelectorBody where
  url : Option String := none
  selector : Option String := none

structure TestSelectorResponse where
  status : Nat
  error : Option String
  fetched : Bool
  evaluated : Bool
deriving DecidableEq, Repr

/-- JavaScript falsiness of `!field` on a request-body string field. -/
def jsFalsyOptStr (v : Option String) : Bool :=
  match v with
  | none => true
  | some s => s == ""

/-- The well-known alternative selectors tried by the endpoint (`index.ts:219-249`). -/
def commonSelectors : List String :=
  ["[data-test-id=\x22search-result-item\x22]",
   "[data-test-id*=\x22search-result\x22]",
   ".search-result",
   ".object-list-item",
   "li[class*=\x22search-result\x22]",
   "div[class*=\x22search-result\x22]",
   ".listing-search-item",
   ".property-list-item",
   "li[class*=\x22listing\x22]",
   "section[class*=\x22property\x22]",
   "[data-testid*=\x22listing\x22]",
   ".listing-item",
   ".room-card",
   "div[class*=\x22listing\x22]",
   "div[class*=\x22room\x22]",
   "[data-testid*=\x22room\x22]",
   "article[class*=\x22listing\x22]",
   "div[data-test-id]",
   "[class*=\x22result\x22]",
   "[class*=\x22item\x22]"]

/-- The direct GET issued by the endpoint (`index.ts:192-202`):
fixed browser-like headers, timeout 30000. -/
def testSelectorRequest (url : String) : HttpRequest :=
  { url := url, params := none, headers := directHeaders, timeout := 30000 }

/-- Count every selector in a list (`$(sel).length` for each); the first
selector-engine error propagates. -/
def countAll (q : String → Except String Nat) :
    List String → Except String (List (String × Nat))
  | [] => Except.ok []
  | sel :: rest =>
    match q sel with
    | Except.error e => Except.error e
    | Except.ok n =>
      match countAll q rest with
      | Except.error e => Except.error e
      | Except.ok l => Except.ok ((sel, n) :: l)

/-- Handler of `POST /api/test-selector` (`index.ts:180-287`): reject with 400
when `url` or `selector` is missing (JS-falsy) before any fetch; otherwise
fetch the page directly, evaluate the tested selector, its comma-split parts
and the well-known alternatives; any thrown error is caught into a 500
response. -/
def testSelectorHandler (net : HttpRequest → Except String String)
    (q : String → String → Except String Nat)
    (body : TestSelectorBody) : TestSelectorResponse :=
  if jsFalsyOptStr body.url || jsFalsyOptStr body.selector then
    { status := 400, error := some "Missing required fields: url and selector",
      fetched := false, evaluated := false }
  else
    match net (testSelectorRequest (body.url.getD "")) with
    | Except.error e =>
      { status := 500, error := some e, fetched := true, evaluated := false }
    | Except.ok html =>
      match q html (body.selector.getD "") with
      | Except.error e =>
        { status := 500, error := some e, fetched := true, evaluated := true }
      | Except.ok _ =>
        match countAll (q html) (splitSelectors (body.selector.getD "")) with
        | Except.error e =>
          { status := 500, error := some e, fetched := true, evaluated := true }
        | Except.ok _ =>
          match countAll (q html) commonSelectors with
          | Except.error e =>
            { status := 500, error := some e, fetched := true, evaluated := true }
          | Except.ok _ =>
            { status := 200, error := none, fetched := true, evaluated := true }

/-! ## Helper lemmas about the selector loop -/

/-- Concrete oracles used in witnesses and counterexamples. -/
def netConst (html : String) : HttpRequest → Except String String :=
  fun _ => Except.ok html

def netFail : HttpRequest → Except String String :=
  fun _ => Except.error "ECONNREFUSED"

/-- A network in which the rendering proxy is down (every request carrying
ScrapingBee parameters fails with a 500) but the target site answers a
plain direct GET. -/
def netBeeDown (html : String) : HttpRequest → Except String String :=
  fun r => if r.params.isSome then Except.error "Request failed with status code 500"
           else Except.ok html

def qConst (n : Nat) : String → String → Except String Nat :=
  fun _ _ => Except.ok n

/-- A DOM engine for which the selector string `li[` is syntactically invalid
(cheerio's engine throws on it) while every other selector matches 3 elements. -/
def qBad : String → String → Except String Nat :=
  fun _ sel => if sel = "li[" then Except.error "SyntaxError: unmatched bracket in selector"
               else Except.ok 3

/-- Example count function: `.foo` matches 3 elements, `.bar` matches 12. -/
def exCount : String → Nat :=
  fun s => if s = ".bar" then 12 else if s = ".foo" then 3 else 0

lemma evalSelectors_pure (count : String → Nat) (sels : List String) :
    ∀ (best : Nat) (work : String),
    evalSelectors (fun s => Except.ok (count s)) sels best work
      = Except.ok (evalCounts count sels best work) := by
  induction sels with
  | nil => intro best work; rfl
  | cons sel rest ih =>
    intro best work
    simp only [evalSelectors, evalCounts]
    by_cases h : 10 ≤ count sel
    · simp [h]
    · simp [h, ih]

lemma evalCounts_below (count : String → Nat) :
    ∀ (sels : List String), (∀ x ∈ sels, count x < 10) →
    ∀ (best : Nat) (work : String),
    evalCounts count sels best work = runBest count sels (best, work) := by
  intro sels
  induction sels with
  | nil => intro _ best work; rfl
  | cons sel rest ih =>
    intro h best work
    have hsel : count sel < 10 := h sel (by simp)
    have hrest : ∀ x ∈ rest, count x < 10 := fun x hx => h x (by simp [hx])
    simp only [evalCounts, runBest]
    rw [if_neg (by omega)]
    rw [ih hrest]
    by_cases hb : best < count sel
    · simp [hb]
    · simp [hb]

lemma runBest_fst (count : String → Nat) :
    ∀ (sels : List String) (bw : Nat × String),
    (runBest count sels bw).1 = (sels.map count).foldl max bw.1 := by
  intro sels
  induction sels with
  | nil => intro bw; rfl
  | cons sel rest ih =>
    intro bw
    simp only [runBest, List.map, List.foldl]
    rw [ih]
    congr 1
    by_cases hb : bw.1 < count sel
    · simp [hb, max_eq_right (Nat.le_of_lt hb)]
    · simp [hb, max_eq_left (Nat.le_of_not_lt hb)]

lemma evalCounts_threshold (count : String → Nat) :
    ∀ (pre : List String), (∀ x ∈ pre, count x < 10) →
    ∀ (s : String) (post : List String) (best : Nat) (work : String), 10 ≤ count s →
    evalCounts count (pre ++ s :: post) best work = (count s, s) := by
  intro pre
  induction pre with
  | nil =>
    intro _ s post best work hs
    simp only [List.nil_append, evalCounts]
    rw [if_pos hs]
  | cons x pre2 ih =>
    intro h s post best work hs
    have hx : count x < 10 := h x (by simp)
    simp only [List.cons_append, evalCounts]
    rw [if_neg (by omega)]
    exact ih (fun y hy => h y (by simp [hy])) s post _ _ hs

lemma evalCounts_zero (count : String → Nat) :
    ∀ (sels : List String), (∀ x ∈ sels, count x = 0) →
    ∀ (best : Nat) (work : String),
    evalCounts count sels best work = (best, work) := by
  intro sels
  induction sels with
  | nil => intro _ best work; rfl
  | cons sel rest ih =>
    intro h best work
    have hsel : count sel = 0 := h sel (by simp)
    have hrest : ∀ x ∈ rest, count x = 0 := fun x hx => h x (by simp [hx])
    simp only [evalCounts, hsel]
    rw [if_neg (by omega), if_neg (Nat.not_lt_zero best), if_neg (Nat.not_lt_zero best)]
    exact ih hrest best work

lemma evalCounts_fst_counts (count : String → Nat) :
    ∀ (sels : List String) (best : Nat) (work : String),
    (0 < best → count work = best) →
    0 < (evalCounts count sels best work).1 →
    count (evalCounts count sels best work).2 = (evalCounts count sels best work).1 := by
  intro sels
  induction sels with
  | nil => intro best work hinv hpos; exact hinv hpos
  | cons sel rest ih =>
    intro best work hinv
    simp only [evalCounts]
    by_cases h10 : 10 ≤ count sel
    · rw [if_pos h10]; intro _; rfl
    · rw [if_neg h10]
      by_cases hb : best < count sel
      · simp only [if_pos hb]
        exact ih (count sel) sel (fun _ => rfl)
      · simp only [if_neg hb]
        exact ih best work hinv

lemma evalSelectors_allZero (q : String → Except String Nat) :
    ∀ (sels : List String), (∀ s ∈ sels, q s = Except.ok 0) →
    ∀ (best : Nat) (work : String),
    evalSelectors q sels best work = Except.ok (best, work) := by
  intro sels
  induction sels with
  | nil => intro _ best work; rfl
  | cons sel rest ih =>
    intro h best work
    have hsel : q sel = Except.ok 0 := h sel (by simp)
    have hrest : ∀ s ∈ rest, q s = Except.ok 0 := fun s hs => h s (by simp [hs])
    simp only [evalSelectors, hsel]
    rw [if_neg (by omega), if_neg (Nat.not_lt_zero best), if_neg (Nat.not_lt_zero best)]
    exact ih hrest best work

lemma evalSelectors_error (q : String → Except String Nat) :
    ∀ (pre : List String), (∀ x ∈ pre, ∃ n, q x = Except.ok n ∧ n < 10) →
    ∀ (s : String) (post : List String) (e : String) (best : Nat) (work : String),
    q s = Except.error e →
    evalSelectors q (pre ++ s :: post) best work = Except.error e := by
  intro pre
  induction pre with
  | nil =>
    intro _ s post e best work hs
    simp only [List.nil_append, evalSelectors, hs]
  | cons x pre2 ih =>
    intro h s post e best work hs
    obtain ⟨n, hqx, hn⟩ := h x (by simp)
    simp only [List.cons_append, evalSelectors, hqx]
    rw [if_neg (by omega)]
    exact ih (fun y hy => h y (by simp [hy])) s post e _ _ hs

lemma evalSelectors_total (q : String → Except String Nat) :
    ∀ (sels : List String), (∀ s ∈ sels, ∃ n, q s = Except.ok n) →
    ∀ (best : Nat) (work : String),
    ∃ p, evalSelectors q sels best work = Except.ok p := by
  intro sels
  induction sels with
  | nil => intro _ best work; exact ⟨(best, work), rfl⟩
  | cons sel rest ih =>
    intro h best work
    obtain ⟨n, hq⟩ := h sel (by simp)
    simp only [evalSelectors, hq]
    by_cases h10 : 10 ≤ n
    · exact ⟨(n, sel), by rw [if_pos h10]⟩
    · rw [if_neg h10]
      exact ih (fun s hs => h s (by simp [hs])) _ _

/-! ## Claim theorems -/

/-- C1: For every input (url, selector string, options) — and every behaviour
of the network and of the DOM engine — `scrape` is a total function into
`ScrapeResult` (in the embedding, the throwing operations of the source are
the oracles, and every oracle error is consumed by a `match` mirroring the
source's `try`/`catch`): the outcome either has `success = true`, or has
`success = false` with the failure captured in the `error` field and
`listingsFound = 0`. -/
theorem scrape_never_escapes (net : HttpRequest → Except String String)
    (q : String → String → Except String Nat)
    (apiKey url selector : String) (options : ScrapeOptions)
    (elapsed : Nat) (ts : String) :
    (scrape net q apiKey url selector options elapsed ts).success = true
    ∨ ((scrape net q apiKey url selector options elapsed ts).success = false
       ∧ ∃ e, (scrape net q apiKey url selector options elapsed ts).error = some e
       ∧ (scrape net q apiKey url selector options elapsed ts).listingsFound = 0) := by
  unfold scrape
  cases hf : fetchHtml net apiKey url options with
  | error e => exact Or.inr ⟨rfl, e, rfl, rfl⟩
  | ok html =>
    simp only []
    cases hev : evalSelectors (q html) (splitSelectors selector) 0 selector with
    | error e => exact Or.inr ⟨rfl, e, rfl, rfl⟩
    | ok p =>
      cases p with
      | mk n w => exact Or.inl rfl

/-- C2: the selector evaluation considers candidates strictly in order.
If some candidate reaches the confidence threshold 10 and all earlier
candidates are below it, the result is that first threshold-reaching
candidate with its count, independently of all later candidates. If no
candidate reaches 10, the loop is the running-best fold (only a strictly
greater count replaces the best, so ties keep the earlier candidate) and the
resulting count is the maximum count over all candidates. On a successful
scrape whose DOM queries all succeed, `listingsFound` is the first component
of this evaluation. -/
theorem selector_resolution (count : String → Nat) :
    (∀ (pre : List String) (s : String) (post : List String) (w0 : String),
        (∀ x ∈ pre, count x < 10) → 10 ≤ count s →
        evalCounts count (pre ++ s :: post) 0 w0 = (count s, s))
    ∧ (∀ (sels : List String) (w0 : String), (∀ x ∈ sels, count x < 10) →
        evalCounts count sels 0 w0 = runBest count sels (0, w0))
    ∧ (∀ (sels : List String) (w0 : String),
        (runBest count sels (0, w0)).1 = (sels.map count).foldl max 0)
    ∧ (∀ (net : HttpRequest → Except String String)
         (q : String → String → Except String Nat)
         (apiKey url selector : String) (options : ScrapeOptions)
         (elapsed : Nat) (ts html : String),
        fetchHtml net apiKey url options = Except.ok html →
        (∀ s, q html s = Except.ok (count s)) →
        (scrape net q apiKey url selector options elapsed ts).listingsFound
          = (evalCounts count (splitSelectors selector) 0 selector).1) := by
  refine ⟨?_, ?_, ?_, ?_⟩
  · intro pre s post w0 hpre hs
    exact evalCounts_threshold count pre hpre s post 0 w0 hs
  · intro sels w0 h
    exact evalCounts_below count sels h 0 w0
  · intro sels w0
    exact runBest_fst count sels (0, w0)
  · intro net q apiKey url selector options elapsed ts html hf hq
    have hqf : q html = fun s => Except.ok (count s) := funext hq
    rcases hev : evalCounts count (splitSelectors selector) 0 selector with ⟨n, w⟩
    simp only [scrape, hf, hqf, evalSelectors_pure count, hev]

/-- Witness for C2: the spec's own scenario — `.foo` matches 3 (< 10, so the
evaluator continues), `.bar` matches 12 (≥ 10, so it stops there): the result
is `(12, ".bar")`. -/
theorem selector_resolution_witness :
    evalCounts exCount ([".foo"] ++ ".bar" :: []) 0 ".foo,.bar" = (12, ".bar") :=
  (selector_resolution exCount).1 [".foo"] ".bar" [] ".foo,.bar"
    (by intro x hx; rw [List.mem_singleton] at hx; subst hx; decide)
    (by decide)

/-- C3: every outcome `scrape` produces satisfies the record invariant:
`success = false` implies `listingsFound = 0` and an empty content hash, and
`success = true` implies the error message is absent. -/
theorem scrapeResult_invariant (net : HttpRequest → Except String String)
    (q : String → String → Except String Nat)
    (apiKey url selector : String) (options : ScrapeOptions)
    (elapsed : Nat) (ts : String) :
    ((scrape net q apiKey url selector options elapsed ts).success = false →
       (scrape net q apiKey url selector options elapsed ts).listingsFound = 0
       ∧ (scrape net q apiKey url selector options elapsed ts).htmlHash = "")
    ∧ ((scrape net q apiKey url selector options elapsed ts).success = true →
       (scrape net q apiKey url selector options elapsed ts).error = none) := by
  unfold scrape
  cases hf : fetchHtml net apiKey url options with
  | error e => exact ⟨fun _ => ⟨rfl, rfl⟩, fun h => nomatch h⟩
  | ok html =>
    simp only []
    cases hev : evalSelectors (q html) (splitSelectors selector) 0 selector with
    | error e => exact ⟨fun _ => ⟨rfl, rfl⟩, fun h => nomatch h⟩
    | ok p =>
      cases p with
      | mk n w => exact ⟨fun h => (nomatch h), fun _ => rfl⟩

/-- Witness for C3: a concrete failing run (the network refuses both paths)
has `listingsFound = 0` and `htmlHash = ""`. -/
theorem scrapeResult_invariant_witness :
    (scrape netFail (qConst 0) "" "https://site.test" ".a" {} 5 "t").listingsFound = 0
    ∧ (scrape netFail (qConst 0) "" "https://site.test" ".a" {} 5 "t").htmlHash = "" :=
  (scrapeResult_invariant netFail (qConst 0) "" "https://site.test" ".a" {} 5 "t").1 rfl

/-- C5: when the fetch succeeds and every comma-split candidate selector
matches 0 elements, the outcome is a success with `listingsFound = 0`
(zero matches is not an error). -/
theorem scrape_zero_matches (net : HttpRequest → Except String String)
    (q : String → String → Except String Nat)
    (apiKey url selector : String) (options : ScrapeOptions)
    (elapsed : Nat) (ts html : String)
    (hf : fetchHtml net apiKey url options = Except.ok html)
    (hq : ∀ s ∈ splitSelectors selector, q html s = Except.ok 0) :
    (scrape net q apiKey url selector options elapsed ts).success = true
    ∧ (scrape net q apiKey url selector options elapsed ts).listingsFound = 0 := by
  have hev := evalSelectors_allZero (q html) (splitSelectors selector) hq 0 selector
  simp [scrape, hf, hev]

/-- Witness for C5: a concrete run in which the page is fetched and both
candidates match nothing reports `success = true`, `listingsFound = 0`. -/
theorem scrape_zero_matches_witness :
    (scrape (netConst "<html></html>") (qConst 0) "" "https://site.test" ".a, .b" {} 5 "t").success = true
    ∧ (scrape (netConst "<html></html>") (qConst 0) "" "https://site.test" ".a, .b" {} 5 "t").listingsFound = 0 :=
  scrape_zero_matches (netConst "<html></html>") (qConst 0) "" "https://site.test" ".a, .b" {} 5 "t"
    "<html></html>" rfl (by intro s _; rfl)

/-- C4 counterexample: a run in which the primary (ScrapingBee) request fails
with a 500, the direct-fetch fallback succeeds and returns the page — yet the
final outcome has `success = false`, because the selector string `li[` is
syntactically invalid and the selector evaluation aborts into the outer
catch. So "primary fails and fallback succeeds implies `success = true`"
does not hold unconditionally. -/
theorem fallback_success_counterexample :
    netBeeDown "<p></p>" (primaryRequest "key" "https://site.test" {})
      = Except.error "Request failed with status code 500"
    ∧ netBeeDown "<p></p>" (directRequest "https://site.test" {}) = Except.ok "<p></p>"
    ∧ (scrape (netBeeDown "<p></p>") qBad "key" "https://site.test" "li[" {} 7 "t").success
        = false :=
  ⟨rfl, rfl, rfl⟩

/-- C4 (amended): when the primary rendering-proxy path fails and the direct
fallback succeeds, the fetch phase returns the fallback's document, and the
outcome has `success = true` provided the selector evaluation raises no
error; conversely a fetch error surfaces in the outcome only when both paths
fail (the direct path failed with that very error, and — when a key is
configured — the primary path failed too). -/
theorem fallback_reflects_direct (net : HttpRequest → Except String String)
    (q : String → String → Except String Nat)
    (apiKey url selector : String) (options : ScrapeOptions)
    (elapsed : Nat) (ts : String) :
    (∀ (html e : String), apiKey ≠ "" →
       net (primaryRequest apiKey url options) = Except.error e →
       net (directRequest url options) = Except.ok html →
       fetchHtml net apiKey url options = Except.ok html
       ∧ ((∀ s ∈ splitSelectors selector, ∃ n, q html s = Except.ok n) →
            (scrape net q apiKey url selector options elapsed ts).success = true))
    ∧ (∀ (e : String), fetchHtml net apiKey url options = Except.error e →
         net (directRequest url options) = Except.error e
         ∧ (apiKey ≠ "" → ∃ e2, net (primaryRequest apiKey url options) = Except.error e2)) := by
  constructor
  · intro html e hk hp hd
    have hf : fetchHtml net apiKey url options = Except.ok html := by
      unfold fetchHtml
      rw [if_neg hk, hp]
      unfold fetchDirect
      rw [hd]
    refine ⟨hf, fun hq => ?_⟩
    obtain ⟨p, hp2⟩ := evalSelectors_total (q html) (splitSelectors selector) hq 0 selector
    rcases p with ⟨n, w⟩
    simp [scrape, hf, hp2]
  · intro e hf
    unfold fetchHtml at hf
    by_cases hk : apiKey = ""
    · rw [if_pos hk] at hf
      exact ⟨hf, fun hne => absurd hk hne⟩
    · rw [if_neg hk] at hf
      cases hp : net (primaryRequest apiKey url options) with
      | ok h2 =>
        rw [hp] at hf
        exact (Except.noConfusion hf)
      | error e2 =>
        rw [hp] at hf
        exact ⟨hf, fun _ => ⟨e2, rfl⟩⟩

/-- Witness for C4 (amended): primary down, fallback delivers the page, all
selectors valid — the outcome succeeds. -/
theorem fallback_reflects_direct_witness :
    (scrape (netBeeDown "<p></p>") (qConst 0) "key" "https://site.test" ".a" {} 7 "t").success
      = true :=
  ((fallback_reflects_direct (netBeeDown "<p></p>") (qConst 0) "key" "https://site.test" ".a"
      {} 7 "t").1 "<p></p>" "Request failed with status code 500"
      (by decide) rfl rfl).2 (by intro s _; exact ⟨0, rfl⟩)

/-- C6 counterexample: the produced record carries no selector at all
(`ScrapeResult` has no `selectorUsed` field), and even the internally tracked
working selector is not "the last-considered candidate" when every candidate
matches 0 elements: with two candidates `.a`, `.b` both matching 0, the
internal selector stays the full initial selector string `".a,.b"`, which
differs from the last candidate `".b"`. -/
theorem selectorUsed_counterexample :
    (evalCounts (fun _ => 0) [".a", ".b"] 0 ".a,.b").2 = ".a,.b"
    ∧ (".a,.b" : String) ≠ ".b" :=
  ⟨rfl, by decide⟩

/-- C6 (amended): the executor tracks a working selector only internally (it
is logged, not returned — the outcome record has no `selectorUsed` field).
That internal selector is the candidate that triggered the early exit when
one reaches the threshold; it stays the initial full selector string when
every candidate matches 0 (not the last-considered candidate); and whenever
the reported count is positive, it is a candidate whose count equals the
reported count. -/
theorem workingSelector_internal (count : String → Nat) :
    (∀ (pre : List String) (s : String) (post : List String) (w0 : String),
        (∀ x ∈ pre, count x < 10) → 10 ≤ count s →
        (evalCounts count (pre ++ s :: post) 0 w0).2 = s)
    ∧ (∀ (sels : List String) (w0 : String), (∀ x ∈ sels, count x = 0) →
        evalCounts count sels 0 w0 = (0, w0))
    ∧ (∀ (sels : List String) (w0 : String), 0 < (evalCounts count sels 0 w0).1 →
        count (evalCounts count sels 0 w0).2 = (evalCounts count sels 0 w0).1) := by
  refine ⟨?_, ?_, ?_⟩
  · intro pre s post w0 hpre hs
    rw [evalCounts_threshold count pre hpre s post 0 w0 hs]
  · intro sels w0 h
    exact evalCounts_zero count sels h 0 w0
  · intro sels w0
    exact evalCounts_fst_counts count sels 0 w0 (fun h => (Nat.lt_irrefl 0 h).elim)

/-- Witness for C6 (amended): in the `.foo`/`.bar` scenario the internal
selector `.bar` indeed produced the reported count 12. -/
theorem workingSelector_internal_witness :
    exCount (evalCounts exCount [".foo", ".bar"] 0 ".x").2
      = (evalCounts exCount [".foo", ".bar"] 0 ".x").1 :=
  (workingSelector_internal exCount).2.2 [".foo", ".bar"] ".x" (by decide)

/-- C7 counterexample: a candidate list containing the syntactically invalid
selector `li[` makes the whole scrape fail: the DOM engine's error propagates
out of the evaluation loop into the outer catch, and the outcome is
`success = false` carrying the selector error — the invalid candidate is not
treated as 0 matches, and the later, perfectly valid candidate `.good`
(which matches 3 elements) is never reached. -/
theorem invalid_selector_counterexample :
    (scrape (netConst "<p></p>") qBad "" "https://site.test" "li[, .good" {} 7 "t").success
      = false
    ∧ (scrape (netConst "<p></p>") qBad "" "https://site.test" "li[, .good" {} 7 "t").error
      = some "SyntaxError: unmatched bracket in selector"
    ∧ qBad "<p></p>" ".good" = Except.ok 3 :=
  ⟨rfl, rfl, rfl⟩

/-- C7 (amended): when the fetch succeeds and some candidate selector is
syntactically invalid (the DOM engine raises on it) while all earlier
candidates are valid with counts below the threshold, the evaluation aborts
and the executor returns the failure record: `success = false`,
`listingsFound = 0`, empty hash, and the selector error as the message. -/
theorem invalid_selector_aborts (net : HttpRequest → Except String String)
    (q : String → String → Except String Nat)
    (apiKey url selector : String) (options : ScrapeOptions)
    (elapsed : Nat) (ts html : String)
    (pre post : List String) (s e : String)
    (hf : fetchHtml net apiKey url options = Except.ok html)
    (hsplit : splitSelectors selector = pre ++ s :: post)
    (hpre : ∀ x ∈ pre, ∃ n, q html x = Except.ok n ∧ n < 10)
    (hs : q html s = Except.error e) :
    scrape net q apiKey url selector options elapsed ts =
      { success := false, listingsFound := 0, htmlHash := "", error := some e,
        responseTime := elapsed, timestamp := ts } := by
  have hev : evalSelectors (q html) (splitSelectors selector) 0 selector = Except.error e := by
    rw [hsplit]
    exact evalSelectors_error (q html) pre hpre s post e 0 selector hs
  simp [scrape, hf, hev]

/-- Witness for C7 (amended): the concrete invalid-selector run returns
exactly the failure record. -/
theorem invalid_selector_aborts_witness :
    scrape (netConst "<p></p>") qBad "" "https://site.test" "li[, .good" {} 7 "t"
      = { success := false, listingsFound := 0, htmlHash := "",
          error := some "SyntaxError: unmatched bracket in selector",
          responseTime := 7, timestamp := "t" } :=
  invalid_selector_aborts (netConst "<p></p>") qBad "" "https://site.test" "li[, .good"
    {} 7 "t" "<p></p>" [] [".good"] "li[" "SyntaxError: unmatched bracket in selector"
    rfl (by decide) (by intro x hx; exact absurd hx (List.not_mem_nil x)) rfl

/-- C8: the primary (rendering proxy) request is issued with an axios client
timeout of `timeoutMs + 5000` and the direct fallback with `timeoutMs`, where
`timeoutMs` is the configured positive timeout, defaulting to 30000 when not
supplied. -/
theorem request_timeouts (apiKey url : String) (options : ScrapeOptions) :
    (options.timeout = none →
       (primaryRequest apiKey url options).timeout = 30000 + 5000
       ∧ (directRequest url options).timeout = 30000)
    ∧ (∀ v, options.timeout = some v → 0 < v →
       (primaryRequest apiKey url options).timeout = v + 5000
       ∧ (directRequest url options).timeout = v) := by
  constructor
  · intro h
    simp [primaryRequest, directRequest, jsOrNat, h]
  · intro v h hv
    simp [primaryRequest, directRequest, jsOrNat, h, Nat.pos_iff_ne_zero.mp hv]

/-- Witness for C8: with a configured timeout of 45000 ms the proxy request
carries 50000 and the direct request 45000; with no timeout configured they
carry 35000 and 30000. -/
theorem request_timeouts_witness :
    ((primaryRequest "key" "https://site.test" { timeout := some 45000 }).timeout = 45000 + 5000
     ∧ (directRequest "https://site.test" { timeout := some 45000 }).timeout = 45000)
    ∧ ((primaryRequest "key" "https://site.test" {}).timeout = 30000 + 5000
       ∧ (directRequest "https://site.test" {}).timeout = 30000) :=
  ⟨(request_timeouts "key" "https://site.test" { timeout := some 45000 }).2 45000 rfl
      (by decide),
   (request_timeouts "key" "https://site.test" {}).1 rfl⟩

/-- C9: the content hash is deterministic. `hashHtml` is a pure digest of the
HTML string, so byte-identical content hashes identically; consequently any
two executor runs — under different networks, DOM engines, keys, options and
clocks — that fetch the same HTML and whose selector evaluation succeeds
produce the same `htmlHash`. -/
theorem contentHash_deterministic (h1 h2 : String) (heq : h1 = h2) :
    hashHtml h1 = hashHtml h2
    ∧ (∀ (net1 net2 : HttpRequest → Except String String)
         (q1 q2 : String → String → Except String Nat)
         (k1 k2 u1 u2 s1 s2 : String) (o1 o2 : ScrapeOptions)
         (e1 e2 : Nat) (t1 t2 : String) (p1 p2 : Nat × String),
        fetchHtml net1 k1 u1 o1 = Except.ok h1 →
        fetchHtml net2 k2 u2 o2 = Except.ok h2 →
        evalSelectors (q1 h1) (splitSelectors s1) 0 s1 = Except.ok p1 →
        evalSelectors (q2 h2) (splitSelectors s2) 0 s2 = Except.ok p2 →
        (scrape net1 q1 k1 u1 s1 o1 e1 t1).htmlHash
          = (scrape net2 q2 k2 u2 s2 o2 e2 t2).htmlHash) := by
  subst heq
  refine ⟨rfl, ?_⟩
  intro net1 net2 q1 q2 k1 k2 u1 u2 s1 s2 o1 o2 e1 e2 t1 t2 p1 p2 hf1 hf2 hev1 hev2
  rcases p1 with ⟨n1, w1⟩
  rcases p2 with ⟨n2, w2⟩
  simp [scrape, hf1, hf2, hev1, hev2]

/-- Witness for C9: two runs with different networks, engines, keys,
selectors and clocks over the same document report the same hash. -/
theorem contentHash_deterministic_witness :
    (scrape (netConst "<p></p>") (qConst 0) "" "https://a.test" ".a" {} 5 "t1").htmlHash
      = (scrape (netBeeDown "<p></p>") (qConst 4) "key" "https://b.test" ".b,.c" {} 9 "t2").htmlHash :=
  (contentHash_deterministic "<p></p>" "<p></p>" rfl).2
    (netConst "<p></p>") (netBeeDown "<p></p>") (qConst 0) (qConst 4)
    "" "key" "https://a.test" "https://b.test" ".a" ".b,.c" {} {} 5 9 "t1" "t2"
    (0, ".a") (4, ".b") rfl rfl rfl rfl

/-- C10: a request to `POST /api/test-selector` whose body lacks the `url`
field or the `selector` field is answered with HTTP status 400 and an error
message, before any network fetch or DOM query is performed. -/
theorem testSelector_missing_field (net : HttpRequest → Except String String)
    (q : String → String → Except String Nat) (body : TestSelectorBody)
    (h : body.url = none ∨ body.selector = none) :
    testSelectorHandler net q body =
      { status := 400, error := some "Missing required fields: url and selector",
        fetched := false, evaluated := false } := by
  rcases h with h | h <;> simp [testSelectorHandler, jsFalsyOptStr, h]

/-- Witness for C10: a body carrying a url but no selector is rejected with
400 and neither fetches nor evaluates — even over a network that would fail. -/
theorem testSelector_missing_field_witness :
    testSelectorHandler netFail (qConst 0) { url := some "https://site.test", selector := none }
      = { status := 400, error := some "Missing required fields: url and selector",
          fetched := false, evaluated := false } :=
  testSelector_missing_field netFail (qConst 0)
    { url := some "https://site.test", selector := none } (Or.inr rfl)
